import Mathlib

/- Verification of the CAPTCHA-solving core of rainyun.py: the similarity
   matcher, the assignment resolver and answer checker, the coordinate
   mapper, the sprite-strip quality check, the bounded retry controller and
   the scratch-directory cleanup. Python floats are modelled as rationals,
   Python dicts as insertion-ordered association lists, and exceptions as
   explicit error values. -/

namespace Rainyun

/- Coordinate mapper (rainyun.py, process_captcha lines 258-261):
   x_offset, y_offset = float(-width / 2), float(-height / 2)
   final_x = int(x_offset + x / width_raw * width)   (per axis; int()
   truncates toward zero). -/

def mapToScreen (position rawSize displaySize : ℚ) : ℚ :=
  -displaySize / 2 + position / rawSize * displaySize

def pyTrunc (q : ℚ) : ℤ :=
  if 0 ≤ q then Int.floor q else Int.ceil q

def finalOffset (position rawSize displaySize : ℚ) : ℤ :=
  pyTrunc (mapToScreen position rawSize displaySize)

/- Similarity matcher (rainyun.py, compute_similarity lines 350-370).
   Descriptor extraction and knnMatch are library black boxes: descriptors
   are an abstract payload (cv2 returns None when an image yields zero
   keypoints, modelled as Option), and the matcher is a parameter producing
   the list of per-query match lists. Division is modelled as checked
   division returning none on a zero denominator, so a ZeroDivisionError
   would surface as a none result. -/

structure DMatch where
  distance : ℚ

abbrev Descs := List ℚ

def pyDiv (a b : ℚ) : Option ℚ :=
  if b = 0 then none else some (a / b)

def ratioGood (ms : List (List DMatch)) : List DMatch :=
  ms.filterMap fun mn =>
    match mn with
    | [m, n] => if m.distance < 4 / 5 * n.distance then some m else none
    | _ => none

def compute_similarity (des1 des2 : Option Descs)
    (knn : Descs → Descs → List (List DMatch)) : Option (ℚ × ℕ) :=
  match des1, des2 with
  | some d1, some d2 =>
    let ms := knn d1 d2
    let good := ratioGood ms
    if good.length = 0 then some (0, 0)
    else (pyDiv good.length ms.length).map fun s => (s, good.length)
  | _, _ => some (0, 0)

/- Assignment resolver, per-sprite accumulation (rainyun.py, process_captcha
   lines 242-248): if the sprite already has an entry it is replaced only
   when the stored similarity is strictly below the new one; otherwise the
   entry (similarity and position) is created. -/

def update_best (cur : Option (ℚ × String)) (cand : ℚ × String) :
    Option (ℚ × String) :=
  match cur with
  | some best => if best.1 < cand.1 then some cand else some best
  | none => some cand

def resolve_sprite (l : List (ℚ × String)) : Option (ℚ × String) :=
  l.foldl update_best none

def best1 (c : ℚ × String) : List (ℚ × String) → ℚ × String
  | [] => c
  | a :: l => if c.1 < a.1 then best1 a l else best1 c l

theorem foldl_update_best (l : List (ℚ × String)) (c : ℚ × String) :
    l.foldl update_best (some c) = some (best1 c l) := by
  induction l generalizing c with
  | nil => rfl
  | cons a l ih =>
    have hstep : update_best (some c) a =
        if c.1 < a.1 then some a else some c := rfl
    simp only [List.foldl_cons, hstep, best1]
    by_cases h : c.1 < a.1
    · rw [if_pos h, if_pos h, ih]
    · rw [if_neg h, if_neg h, ih]

theorem best1_spec (l : List (ℚ × String)) (c : ℚ × String) :
    ∃ l1 l2, c :: l = l1 ++ best1 c l :: l2 ∧
      (∀ x ∈ l1, x.1 < (best1 c l).1) ∧ (∀ x ∈ l2, x.1 ≤ (best1 c l).1) := by
  induction l generalizing c with
  | nil => exact ⟨[], [], rfl, by simp, by simp⟩
  | cons a l ih =>
    simp only [best1]
    by_cases h : c.1 < a.1
    · rw [if_pos h]
      obtain ⟨l1, l2, heq, h1, h2⟩ := ih a
      have hc : c.1 < (best1 a l).1 := by
        cases l1 with
        | nil =>
          simp only [List.nil_append] at heq
          injection heq with ha hl
          rw [← ha]
          exact h
        | cons b t =>
          simp only [List.cons_append] at heq
          injection heq with ha hl
          have hmem : a ∈ b :: t := by
            rw [ha]
            exact List.mem_cons_self b t
          exact lt_trans h (h1 a hmem)
      refine ⟨c :: l1, l2, ?_, ?_, h2⟩
      · rw [List.cons_append, ← heq]
      · intro x hx
        rcases List.mem_cons.1 hx with hx | hx
        · rw [hx]
          exact hc
        · exact h1 x hx
    · rw [if_neg h]
      obtain ⟨l1, l2, heq, h1, h2⟩ := ih c
      cases l1 with
      | nil =>
        simp only [List.nil_append] at heq
        injection heq with hc hl
        refine ⟨[], a :: l2, ?_, by simp, ?_⟩
        · rw [List.nil_append, ← hc, hl]
        · intro x hx
          rcases List.mem_cons.1 hx with hx | hx
          · rw [hx, ← hc]
            exact le_of_not_lt h
          · exact h2 x hx
      | cons b t =>
        simp only [List.cons_append] at heq
        injection heq with hcb hl
        have hcbest : c.1 < (best1 c l).1 := by
          refine h1 c ?_
          rw [hcb]
          exact List.mem_cons_self b t
        refine ⟨c :: a :: t, l2, ?_, ?_, h2⟩
        · rw [List.cons_append, List.cons_append]
          exact congrArg (fun s => c :: a :: s) hl
        · intro x hx
          rcases List.mem_cons.1 hx with hx | hx
          · rw [hx]
            exact hcbest
          · rcases List.mem_cons.1 hx with hx | hx
            · rw [hx]
              exact lt_of_le_of_lt (le_of_not_lt h) hcbest
            · exact h1 x (List.mem_cons_of_mem b hx)

/- Python values stored in the recognition-result dict: floats (the
   similarity scores) and strings (the positions "x,y"). -/

inductive PyVal
  | float (q : ℚ)
  | str (s : String)
deriving DecidableEq

/- Python dict assignment d[k] = v on an insertion-ordered association
   list: replaces the value in place when the key is present, otherwise
   appends the new pair. -/

def pySet {α β : Type} [DecidableEq α] (d : List (α × β)) (k : α) (v : β) :
    List (α × β) :=
  if k ∈ d.map Prod.fst then
    d.map fun p => if p.1 = k then (k, v) else p
  else d ++ [(k, v)]

abbrev PyDict := List (String × PyVal)

/- check_answer (rainyun.py lines 338-347): reject when the dict has fewer
   than 6 keys, otherwise build the value-to-key reverse dict and compare
   its size with the number of values. -/

def flip (d : PyDict) : List (PyVal × String) :=
  d.foldl (fun m kv => pySet m kv.2 kv.1) []

def check_answer (d : PyDict) : Bool :=
  if d.length < 6 then false
  else d.length == (flip d).length

/- The result dict built by process_captcha holds, per sprite j, the keys
   "sprite_j.similarity" and "sprite_j.position", inserted in that order
   for j = 1, 2, 3 on the first candidate. -/

def spriteKey (j : ℕ) (rest : String) : String :=
  "sprite_" ++ toString j ++ rest

def mkAssignment (s1 s2 s3 : ℚ) (p1 p2 p3 : String) : PyDict :=
  [(spriteKey 1 ".similarity", PyVal.float s1),
   (spriteKey 1 ".position", PyVal.str p1),
   (spriteKey 2 ".similarity", PyVal.float s2),
   (spriteKey 2 ".position", PyVal.str p2),
   (spriteKey 3 ".similarity", PyVal.float s3),
   (spriteKey 3 ".position", PyVal.str p3)]

theorem pySet_keys {α β : Type} [DecidableEq α] (d : List (α × β)) (k : α)
    (v : β) :
    (pySet d k v).map Prod.fst =
      if k ∈ d.map Prod.fst then d.map Prod.fst
      else d.map Prod.fst ++ [k] := by
  unfold pySet
  by_cases h : k ∈ d.map Prod.fst
  · rw [if_pos h, if_pos h, List.map_map]
    congr 1
    funext p
    by_cases hp : p.1 = k
    · simp [hp]
    · simp [hp]
  · rw [if_neg h, if_neg h, List.map_append]
    rfl

theorem flip_foldl_keys_nodup (d : PyDict) (m : List (PyVal × String))
    (hm : (m.map Prod.fst).Nodup) :
    ((d.foldl (fun m kv => pySet m kv.2 kv.1) m).map Prod.fst).Nodup := by
  induction d generalizing m with
  | nil => exact hm
  | cons kv d ih =>
    rw [List.foldl_cons]
    apply ih
    rw [pySet_keys]
    by_cases h : kv.2 ∈ m.map Prod.fst
    · rw [if_pos h]
      exact hm
    · rw [if_neg h]
      rw [List.nodup_append]
      refine ⟨hm, List.nodup_singleton _, ?_⟩
      intro x hx hx2
      rw [List.mem_singleton] at hx2
      rw [hx2] at hx
      exact h hx

theorem flip_foldl_keys_toFinset (d : PyDict) (m : List (PyVal × String)) :
    ((d.foldl (fun m kv => pySet m kv.2 kv.1) m).map Prod.fst).toFinset =
      (m.map Prod.fst).toFinset ∪ (d.map Prod.snd).toFinset := by
  induction d generalizing m with
  | nil => simp
  | cons kv d ih =>
    rw [List.foldl_cons, ih, pySet_keys]
    by_cases h : kv.2 ∈ m.map Prod.fst
    · rw [if_pos h]
      ext x
      simp only [Finset.mem_union, List.mem_toFinset, List.map_cons,
        List.toFinset_cons, Finset.mem_insert]
      constructor
      · intro hx
        rcases hx with hx | hx
        · exact Or.inl hx
        · exact Or.inr (Or.inr hx)
      · intro hx
        rcases hx with hx | hx | hx
        · exact Or.inl hx
        · exact Or.inl (hx ▸ h)
        · exact Or.inr hx
    · rw [if_neg h]
      ext x
      simp only [Finset.mem_union, List.mem_toFinset, List.map_cons,
        List.toFinset_cons, Finset.mem_insert, List.mem_append,
        List.mem_singleton]
      tauto

theorem flip_length (d : PyDict) :
    (flip d).length = (d.map Prod.snd).toFinset.card := by
  have hnodup := flip_foldl_keys_nodup d [] (by simp)
  have hfin := flip_foldl_keys_toFinset d []
  unfold flip
  rw [← List.length_map (f := Prod.fst),
    ← List.toFinset_card_of_nodup hnodup, hfin]
  simp

theorem card_le_five {α : Type} [DecidableEq α] (a b c d e : α) :
    ({a, b, c, d, e} : Finset α).card ≤ 5 := by
  have h1 := Finset.card_insert_le a ({b, c, d, e} : Finset α)
  have h2 := Finset.card_insert_le b ({c, d, e} : Finset α)
  have h3 := Finset.card_insert_le c ({d, e} : Finset α)
  have h4 := Finset.card_insert_le d ({e} : Finset α)
  simp only [Finset.card_singleton] at *
  omega

theorem reject_of_card_le (s1 s2 s3 : ℚ) (p1 p2 p3 : String)
    (h : ((mkAssignment s1 s2 s3 p1 p2 p3).map Prod.snd).toFinset.card ≤ 5) :
    check_answer (mkAssignment s1 s2 s3 p1 p2 p3) = false := by
  have hlen : (mkAssignment s1 s2 s3 p1 p2 p3).length = 6 := rfl
  unfold check_answer
  rw [if_neg (by rw [hlen]; omega), flip_length, hlen,
    beq_eq_false_iff_ne]
  omega

/-- Claim C5: the coordinate mapper computes, per axis, offset =
-displaySize/2 + position/rawSize * displaySize; for every raw size W > 0
and every display size D, mapping the image-center position W/2 yields
offset 0 (both before and after the int() truncation), independent of the
ratio D/W. -/
theorem mapToScreen_center (W D : ℚ) (hW : 0 < W) :
    mapToScreen (W / 2) W D = 0 ∧ finalOffset (W / 2) W D = 0 := by
  have hW0 : W ≠ 0 := ne_of_gt hW
  have h : mapToScreen (W / 2) W D = 0 := by
    unfold mapToScreen
    field_simp
    ring
  refine ⟨h, ?_⟩
  unfold finalOffset pyTrunc
  rw [h]
  simp

/-- Witness for Claim C5 at W = 100, D = 340. -/
theorem mapToScreen_center_witness :
    mapToScreen (100 / 2) 100 340 = 0 ∧ finalOffset (100 / 2) 100 340 = 0 :=
  mapToScreen_center 100 340 (by norm_num)

/-- Claim C4: if either crop yields no descriptors (cv2 returns None), the
similarity computation returns score 0 and vote count 0; and on every input
it returns a value (never a division by zero: the checked division is never
invoked with a zero denominator, in particular when the good-correspondence
list is empty the early (0, 0) return fires). -/
theorem compute_similarity_total :
    (∀ des2 knn, compute_similarity none des2 knn = some (0, 0)) ∧
    (∀ des1 knn, compute_similarity des1 none knn = some (0, 0)) ∧
    (∀ des1 des2 knn, ∃ r, compute_similarity des1 des2 knn = some r) := by
  refine ⟨?_, ?_, ?_⟩
  · intro des2 knn
    cases des2 <;> rfl
  · intro des1 knn
    cases des1 <;> rfl
  · intro des1 des2 knn
    cases des1 with
    | none => cases des2 <;> exact ⟨(0, 0), rfl⟩
    | some d1 =>
      cases des2 with
      | none => exact ⟨(0, 0), rfl⟩
      | some d2 =>
        simp only [compute_similarity]
        by_cases hg : (ratioGood (knn d1 d2)).length = 0
        · rw [if_pos hg]
          exact ⟨(0, 0), rfl⟩
        · rw [if_neg hg]
          have hle : (ratioGood (knn d1 d2)).length ≤ (knn d1 d2).length :=
            List.length_filterMap_le _ _
          have hpos : (knn d1 d2).length ≠ 0 := by
            intro h0
            exact hg (Nat.le_antisymm (h0 ▸ hle) (Nat.zero_le _))
          have hq : ((knn d1 d2).length : ℚ) ≠ 0 := by
            exact_mod_cast hpos
          refine ⟨(((ratioGood (knn d1 d2)).length : ℚ) /
            ((knn d1 d2).length : ℚ), (ratioGood (knn d1 d2)).length), ?_⟩
          simp [pyDiv, hq]

/-- Claim C6: over any nonempty ordered sequence of candidates for one
sprite, the accumulation retains exactly the first candidate attaining the
maximum similarity: the list splits as l1 ++ r :: l2 where every earlier
candidate (in l1) is strictly worse and every later one (in l2) is no
better, so on a tie the earlier-seen entry (similarity and position) is the
one kept. -/
theorem resolve_sprite_first_max (c : ℚ × String) (l : List (ℚ × String)) :
    ∃ r l1 l2, resolve_sprite (c :: l) = some r ∧ c :: l = l1 ++ r :: l2 ∧
      (∀ x ∈ l1, x.1 < r.1) ∧ (∀ x ∈ l2, x.1 ≤ r.1) := by
  obtain ⟨l1, l2, heq, h1, h2⟩ := best1_spec l c
  refine ⟨best1 c l, l1, l2, ?_, heq, h1, h2⟩
  unfold resolve_sprite
  rw [List.foldl_cons]
  exact foldl_update_best l c

/- Sprite-strip quality check (rainyun.py, check_captcha lines 320-334):
   return False when the strip fails to decode, otherwise cut three
   vertical slices of width w // 3 (columns w//3*i to w//3*(i+1)), classify
   each and return False as soon as one classifies as "0" or "1". -/

def sliceLo (w i : ℕ) : ℕ := w / 3 * i

def sliceHi (w i : ℕ) : ℕ := w / 3 * (i + 1)

def check_captcha (spriteOk : Bool) (classify : ℕ → String) : Bool :=
  if spriteOk then
    (List.range 3).all fun i => !(classify i == "0" || classify i == "1")
  else false

/- Candidate scoring loop (rainyun.py, process_captcha lines 232-248): for
   each detected box, crop it and score it against each of the three
   sprites, keeping per sprite the best similarity and the box center
   (int((x1+x2)/2), int((y1+y2)/2)) rendered as the string "x,y". -/

structure BBox where
  x1 : ℕ
  y1 : ℕ
  x2 : ℕ
  y2 : ℕ

def posString (b : BBox) : String :=
  toString ((b.x1 + b.x2) / 2) ++ "," ++ toString ((b.y1 + b.y2) / 2)

def pyGet (d : PyDict) (k : String) : Option PyVal :=
  (d.find? fun p => p.1 == k).map Prod.snd

def updateSprite (res : PyDict) (j : ℕ) (sim : ℚ) (pos : String) : PyDict :=
  let simKey := spriteKey (j + 1) ".similarity"
  let posKey := spriteKey (j + 1) ".position"
  match pyGet res simKey with
  | some (PyVal.float prev) =>
    if prev < sim then
      pySet (pySet res simKey (PyVal.float sim)) posKey (PyVal.str pos)
    else res
  | some (PyVal.str _) => res
  | none =>
    pySet (pySet res simKey (PyVal.float sim)) posKey (PyVal.str pos)

def process_candidates (bboxes : List BBox) (sims : ℕ → ℕ → ℚ) : PyDict :=
  bboxes.enum.foldl
    (fun res ib =>
      (List.range 3).foldl
        (fun r j => updateSprite r j (sims j ib.1) (posString ib.2)) res)
    []

/- Exceptions arising inside one captcha attempt. The except clause at
   rainyun.py line 284 catches exactly TimeoutException, ValueError and
   CaptchaRetryableError; every other exception propagates to the caller
   (for example NoSuchElementException from find_element). -/

inductive PyErr
  | timeoutErr
  | valueErr
  | captchaRetryable
  | noSuchElement
  | otherErr
deriving DecidableEq

def isRetryable : PyErr → Bool
  | .timeoutErr => true
  | .valueErr => true
  | .captchaRetryable => true
  | _ => false

/- Result of the try-block body of one attempt (rainyun.py lines 221-283):
   it returns True on a verified captcha, falls through to the reload of
   lines 279-283 on any recognized failure, or raises. -/

inductive BodyRes
  | success
  | refresh
  | raised (e : PyErr)
deriving DecidableEq

/- Environment of one attempt: everything the external world (network,
   browser, decoder, detector, classifier) feeds that attempt. -/

structure AttemptEnv where
  download : Option PyErr
  spriteOk : Bool
  classify : ℕ → String
  bgOk : Bool
  bboxes : List BBox
  sims : ℕ → ℕ → ℚ
  actErr : Option PyErr
  verified : Bool
  tryReload : Option PyErr
  handlerReloadOk : Bool

/- One attempt body, together with the flag recording whether
   det.detection was invoked (rainyun.py line 232). download_captcha_img
   runs first and may raise; check_captcha gates everything else; a
   background image that fails to decode raises CaptchaRetryableError at
   line 229 before detection; otherwise detection runs, the result dict is
   built and checked, the clicks and the verification happen. -/

def bodyOf (env : AttemptEnv) : BodyRes × Bool :=
  match env.download with
  | some e => (.raised e, false)
  | none =>
    if check_captcha env.spriteOk env.classify then
      if env.bgOk then
        if check_answer (process_candidates env.bboxes env.sims) then
          match env.actErr with
          | some e => (.raised e, true)
          | none =>
            if env.verified then (.success, true) else (.refresh, true)
        else (.refresh, true)
      else (.raised .captchaRetryable, false)
    else (.refresh, false)

/- Retry controller (rainyun.py, process_captcha lines 217-296), with the
   second component counting the image-download cycles performed. A raised
   retryable error is caught at line 284 and the handler tries to reload
   (returning False when the reload itself fails); the fall-through path
   reloads at lines 279-283 inside the try block, so a reload failure there
   goes through the same except clause. The handler's recursive call at
   line 293 sits inside the inner try whose except Exception returns False,
   so any exception raised by the deeper attempts it starts — including a
   non-retryable one — is converted to a plain False result; handlerGuard
   models that catch-all around the recursion's outcome. The fall-through
   recursion at line 283 is guarded only by the outer except clause, and a
   deeper attempt can only let a non-retryable exception escape, which that
   clause does not catch, so its result passes through unchanged. -/

def handlerGuard (r : Except PyErr Bool) : Except PyErr Bool :=
  match r with
  | .error _ => .ok false
  | .ok b => .ok b

def process_captcha (env : ℕ → AttemptEnv) (rc : ℕ) :
    Except PyErr Bool × ℕ :=
  if h : 5 ≤ rc then (.ok false, 0)
  else
    match (bodyOf (env rc)).1 with
    | .success => (.ok true, 1)
    | .raised e =>
      if isRetryable e then
        if (env rc).handlerReloadOk then
          (handlerGuard (process_captcha env (rc + 1)).1,
            (process_captcha env (rc + 1)).2 + 1)
        else (.ok false, 1)
      else (.error e, 1)
    | .refresh =>
      match (env rc).tryReload with
      | some e =>
        if isRetryable e then
          if (env rc).handlerReloadOk then
            (handlerGuard (process_captcha env (rc + 1)).1,
              (process_captcha env (rc + 1)).2 + 1)
          else (.ok false, 1)
        else (.error e, 1)
      | none =>
        ((process_captcha env (rc + 1)).1,
          (process_captcha env (rc + 1)).2 + 1)
termination_by 5 - rc
decreasing_by all_goals omega

/- Scratch directory model (rainyun.py, download_captcha_img lines 300-304
   and download_image lines 170-177): at the start of every attempt each
   regular file and symlink in temp/ is removed, then the attempt writes
   its own files (downloads, strip slices, candidate crops), all tagged
   here with the attempt index. -/

inductive FileKind
  | regular
  | symlink
  | subdir
deriving DecidableEq

structure TempEntry where
  name : String
  kind : FileKind
  attempt : ℕ
deriving DecidableEq

def clear_temp (fs : List TempEntry) : List TempEntry :=
  fs.filter fun e => !(e.kind == .regular || e.kind == .symlink)

def attempt_files (fs : List TempEntry) (k : ℕ) (names : List String) :
    List TempEntry :=
  clear_temp fs ++ names.map fun n => ⟨n, .regular, k⟩

def run_attempts (fs : List TempEntry) (names : ℕ → List String) :
    ℕ → List TempEntry
  | 0 => fs
  | n + 1 => attempt_files (run_attempts fs names n) n (names n)

/-- Claim C2: check_answer rejects every dictionary with fewer than 6 keys,
and rejects every complete assignment whose three recorded positions are
not pairwise distinct, regardless of the similarity scores. -/
theorem check_answer_rejects (d : PyDict) (s1 s2 s3 : ℚ) (p1 p2 p3 : String) :
    (d.length < 6 → check_answer d = false) ∧
    (¬(p1 ≠ p2 ∧ p1 ≠ p3 ∧ p2 ≠ p3) →
      check_answer (mkAssignment s1 s2 s3 p1 p2 p3) = false) := by
  constructor
  · intro hlen
    unfold check_answer
    rw [if_pos hlen]
  · intro hdup
    have hcases : p1 = p2 ∨ p1 = p3 ∨ p2 = p3 := by tauto
    rcases hcases with hc | hc | hc
    · rw [← hc]
      refine reject_of_card_le s1 s2 s3 p1 p1 p3 ?_
      have hsub : ((mkAssignment s1 s2 s3 p1 p1 p3).map Prod.snd).toFinset ⊆
          {PyVal.float s1, PyVal.str p1, PyVal.float s2, PyVal.float s3,
            PyVal.str p3} := by
        intro x hx
        simp only [mkAssignment, List.map_cons, List.map_nil,
          List.toFinset_cons, List.toFinset_nil, Finset.mem_insert,
          Finset.mem_singleton, insert_emptyc_eq] at hx ⊢
        tauto
      exact le_trans (Finset.card_le_card hsub) (card_le_five _ _ _ _ _)
    · rw [← hc]
      refine reject_of_card_le s1 s2 s3 p1 p2 p1 ?_
      have hsub : ((mkAssignment s1 s2 s3 p1 p2 p1).map Prod.snd).toFinset ⊆
          {PyVal.float s1, PyVal.str p1, PyVal.float s2, PyVal.str p2,
            PyVal.float s3} := by
        intro x hx
        simp only [mkAssignment, List.map_cons, List.map_nil,
          List.toFinset_cons, List.toFinset_nil, Finset.mem_insert,
          Finset.mem_singleton, insert_emptyc_eq] at hx ⊢
        tauto
      exact le_trans (Finset.card_le_card hsub) (card_le_five _ _ _ _ _)
    · rw [← hc]
      refine reject_of_card_le s1 s2 s3 p1 p2 p2 ?_
      have hsub : ((mkAssignment s1 s2 s3 p1 p2 p2).map Prod.snd).toFinset ⊆
          {PyVal.float s1, PyVal.str p1, PyVal.float s2, PyVal.str p2,
            PyVal.float s3} := by
        intro x hx
        simp only [mkAssignment, List.map_cons, List.map_nil,
          List.toFinset_cons, List.toFinset_nil, Finset.mem_insert,
          Finset.mem_singleton, insert_emptyc_eq] at hx ⊢
        tauto
      exact le_trans (Finset.card_le_card hsub) (card_le_five _ _ _ _ _)

/-- Witness for Claim C2: the empty dict is rejected, and an assignment in
which sprites 1 and 2 resolved to the same position "5,5" is rejected. -/
theorem check_answer_rejects_witness :
    check_answer [] = false ∧
    check_answer (mkAssignment 1 2 3 "5,5" "5,5" "7,7") = false :=
  ⟨(check_answer_rejects [] 0 0 0 "" "" "").1 (by decide),
   (check_answer_rejects [] 1 2 3 "5,5" "5,5" "7,7").2 (fun h => h.1 rfl)⟩

/-- Claim C3: the reverse mapping in check_answer ranges over all six
stored values (similarity scores as well as positions), so an assignment
with all 6 keys and pairwise distinct positions is still rejected whenever
two sprites have exactly equal similarity scores. -/
theorem check_answer_rejects_equal_sims (s1 s2 s3 : ℚ) (p1 p2 p3 : String)
    (hp12 : p1 ≠ p2) (hp13 : p1 ≠ p3) (hp23 : p2 ≠ p3)
    (hs : s1 = s2 ∨ s1 = s3 ∨ s2 = s3) :
    check_answer (mkAssignment s1 s2 s3 p1 p2 p3) = false := by
  rcases hs with hc | hc | hc
  · rw [← hc]
    refine reject_of_card_le s1 s1 s3 p1 p2 p3 ?_
    have hsub : ((mkAssignment s1 s1 s3 p1 p2 p3).map Prod.snd).toFinset ⊆
        {PyVal.float s1, PyVal.str p1, PyVal.str p2, PyVal.float s3,
          PyVal.str p3} := by
      intro x hx
      simp only [mkAssignment, List.map_cons, List.map_nil,
        List.toFinset_cons, List.toFinset_nil, Finset.mem_insert,
        Finset.mem_singleton, insert_emptyc_eq] at hx ⊢
      tauto
    exact le_trans (Finset.card_le_card hsub) (card_le_five _ _ _ _ _)
  · rw [← hc]
    refine reject_of_card_le s1 s2 s1 p1 p2 p3 ?_
    have hsub : ((mkAssignment s1 s2 s1 p1 p2 p3).map Prod.snd).toFinset ⊆
        {PyVal.float s1, PyVal.str p1, PyVal.float s2, PyVal.str p2,
          PyVal.str p3} := by
      intro x hx
      simp only [mkAssignment, List.map_cons, List.map_nil,
        List.toFinset_cons, List.toFinset_nil, Finset.mem_insert,
        Finset.mem_singleton, insert_emptyc_eq] at hx ⊢
      tauto
    exact le_trans (Finset.card_le_card hsub) (card_le_five _ _ _ _ _)
  · rw [← hc]
    refine reject_of_card_le s1 s2 s2 p1 p2 p3 ?_
    have hsub : ((mkAssignment s1 s2 s2 p1 p2 p3).map Prod.snd).toFinset ⊆
        {PyVal.float s1, PyVal.str p1, PyVal.float s2, PyVal.str p2,
          PyVal.str p3} := by
      intro x hx
      simp only [mkAssignment, List.map_cons, List.map_nil,
        List.toFinset_cons, List.toFinset_nil, Finset.mem_insert,
        Finset.mem_singleton, insert_emptyc_eq] at hx ⊢
      tauto
    exact le_trans (Finset.card_le_card hsub) (card_le_five _ _ _ _ _)

/-- Witness for Claim C3: distinct positions, but sprites 1 and 2 have the
same similarity score 1/2, so the assignment is rejected. -/
theorem check_answer_rejects_equal_sims_witness :
    check_answer (mkAssignment (1 / 2) (1 / 2) (3 / 4) "1,1" "2,2" "3,3")
      = false :=
  check_answer_rejects_equal_sims (1 / 2) (1 / 2) (3 / 4) "1,1" "2,2" "3,3"
    (by decide) (by decide) (by decide) (Or.inl rfl)

theorem process_captcha_count_le (env : ℕ → AttemptEnv) (rc : ℕ) :
    (process_captcha env rc).2 ≤ 5 - rc := by
  generalize hn : 5 - rc = n
  induction n generalizing rc with
  | zero =>
    rw [process_captcha, dif_pos (by omega)]
  | succ n ih =>
    have hrc : ¬ 5 ≤ rc := by omega
    have hih : (process_captcha env (rc + 1)).2 ≤ n :=
      ih (rc + 1) (by omega)
    rw [process_captcha, dif_neg hrc]
    split
    · simp <;> omega
    · split_ifs <;> simp <;> omega
    · split
      · split_ifs <;> simp <;> omega
      · simp <;> omega

theorem process_captcha_error_aux (env : ℕ → AttemptEnv) (rc : ℕ)
    (e : PyErr) (h : (process_captcha env rc).1 = .error e) :
    isRetryable e = false := by
  generalize hn : 5 - rc = n at h
  induction n generalizing rc with
  | zero =>
    rw [process_captcha, dif_pos (by omega)] at h
    exact absurd h (by simp)
  | succ n ih =>
    have hrc : ¬ 5 ≤ rc := by omega
    rw [process_captcha, dif_neg hrc] at h
    revert h
    split
    · intro h
      exact absurd h (by simp)
    · rename_i e0 heq
      split_ifs with h1 h2
      · intro h
        simp only at h
        cases hX : (process_captcha env (rc + 1)).1 with
        | error e1 =>
          rw [hX] at h
          simp [handlerGuard] at h
        | ok b =>
          rw [hX] at h
          simp [handlerGuard] at h
      · intro h
        exact absurd h (by simp)
      · intro h
        simp only [Except.error.injEq] at h
        rw [← h]
        exact Bool.of_not_eq_true h1
    · split
      · rename_i e0 heq
        split_ifs with h1 h2
        · intro h
          simp only at h
          cases hX : (process_captcha env (rc + 1)).1 with
          | error e1 =>
            rw [hX] at h
            simp [handlerGuard] at h
          | ok b =>
            rw [hX] at h
            simp [handlerGuard] at h
        · intro h
          exact absurd h (by simp)
        · intro h
          simp only [Except.error.injEq] at h
          rw [← h]
          exact Bool.of_not_eq_true h1
      · intro h
        simp only at h
        exact ih (rc + 1) h (by omega)

/-- Claim C1: from retry_count = 0 with the cap at its default 5, the
retry controller performs at most cap + 1 = 6 image-download cycles on any
run before returning, in particular before reporting exhaustion; it never
performs more. -/
theorem process_captcha_attempts_le (env : ℕ → AttemptEnv) :
    (process_captcha env 0).2 ≤ 5 + 1 :=
  le_trans (process_captcha_count_le env 0) (by omega)

/- An attempt whose download step immediately raises the given exception;
   everything after the download is unreachable on that attempt. -/

def envRaise (e : PyErr) : AttemptEnv :=
  ⟨some e, true, fun _ => "", true, [], fun _ _ => 0, none, false, none,
    true⟩

/- A run in which attempt 0 fails with a retryable timeout and its handler
   reload succeeds, while every later attempt raises the non-retryable
   otherErr. -/

def envSeq : ℕ → AttemptEnv
  | 0 => envRaise PyErr.timeoutErr
  | _ + 1 => envRaise PyErr.otherErr

theorem process_captcha_envSeq_one :
    process_captcha envSeq 1 = (.error PyErr.otherErr, 1) := by
  rw [process_captcha, dif_neg (by omega)]
  rfl

/-- Counterexample to Claim C8: attempt 1 raises the non-retryable
otherErr, yet a run started at retry_count 0 whose first attempt failed
retryably returns plain False (after 2 download cycles) — the deep
non-retryable exception is absorbed by the handler's catch-all around the
recursive call at rainyun.py line 293 instead of propagating to the
caller. -/
theorem process_captcha_absorbs_deep_error :
    (bodyOf (envSeq 1)).1 = .raised PyErr.otherErr ∧
    isRetryable PyErr.otherErr = false ∧
    process_captcha envSeq 0 = (.ok false, 2) ∧
    (process_captcha envSeq 0).1 ≠ .error PyErr.otherErr := by
  have hmain : process_captcha envSeq 0 = (.ok false, 2) := by
    rw [process_captcha, dif_neg (by omega)]
    show (handlerGuard (process_captcha envSeq 1).1,
      (process_captcha envSeq 1).2 + 1) = (.ok false, 2)
    rw [process_captcha_envSeq_one]
    rfl
  refine ⟨rfl, rfl, hmain, ?_⟩
  rw [hmain]
  simp

/-- Claim C8 amended: the controller catches and retries only the defined
retryable taxonomy (timeout, parse failure, download failure): a
non-retryable exception raised inside an attempt propagates unmodified out
of that attempt's own frame, and every exception the controller lets
escape is outside the retryable taxonomy; however, when deeper attempts
were started by the retry handler of an earlier retryable failure, a
non-retryable exception they raise is absorbed by that handler's catch-all
reload guard and the controller returns False instead of propagating
it. -/
theorem process_captcha_retry_taxonomy :
    (∀ (env : ℕ → AttemptEnv) (rc : ℕ) (e : PyErr), rc < 5 →
      (bodyOf (env rc)).1 = .raised e → isRetryable e = false →
      process_captcha env rc = (.error e, 1)) ∧
    (∀ (env : ℕ → AttemptEnv) (rc : ℕ) (e : PyErr),
      (process_captcha env rc).1 = .error e → isRetryable e = false) ∧
    (∀ (env : ℕ → AttemptEnv) (rc : ℕ) (e e2 : PyErr), rc < 5 →
      (bodyOf (env rc)).1 = .raised e → isRetryable e = true →
      (env rc).handlerReloadOk = true →
      (process_captcha env (rc + 1)).1 = .error e2 →
      process_captcha env rc =
        (.ok false, (process_captcha env (rc + 1)).2 + 1)) := by
  refine ⟨?_, ?_, ?_⟩
  · intro env rc e hrc hb hr
    rw [process_captcha, dif_neg (by omega), hb]
    simp [hr]
  · exact fun env rc e h => process_captcha_error_aux env rc e h
  · intro env rc e e2 hrc hb hr hok herr
    rw [process_captcha, dif_neg (by omega), hb]
    simp [hr, hok, handlerGuard, herr]

/-- Witness for Claim C8 amended: a first attempt raising the
non-retryable otherErr surfaces exactly that error after one download
cycle, that escaped error is non-retryable, and in the envSeq run the
deep non-retryable error of attempt 1 is absorbed into a False result. -/
theorem process_captcha_retry_taxonomy_witness :
    process_captcha (fun _ => envRaise PyErr.otherErr) 0
      = (.error PyErr.otherErr, 1) ∧
    isRetryable PyErr.otherErr = false ∧
    process_captcha envSeq 0
      = (.ok false, (process_captcha envSeq 1).2 + 1) := by
  refine ⟨?_, ?_, ?_⟩
  · exact process_captcha_retry_taxonomy.1 (fun _ => envRaise PyErr.otherErr)
      0 PyErr.otherErr (by omega) rfl rfl
  · refine process_captcha_retry_taxonomy.2.1
      (fun _ => envRaise PyErr.otherErr) 0 PyErr.otherErr ?_
    rw [process_captcha_retry_taxonomy.1 (fun _ => envRaise PyErr.otherErr)
      0 PyErr.otherErr (by omega) rfl rfl]
  · exact process_captcha_retry_taxonomy.2.2 envSeq 0 PyErr.timeoutErr
      PyErr.otherErr (by omega) rfl rfl rfl
      (by rw [process_captcha_envSeq_one])

/-- Claim C7: the strip check cuts three slices of equal width w/3, and if
the classification of any third returns "0" or "1" the quality check
returns false and the attempt body takes the refresh path with the object
detector never invoked (second component false). -/
theorem check_captcha_rejects (w : ℕ) (env : AttemptEnv) (i : ℕ)
    (hi : i < 3) (hlab : env.classify i = "0" ∨ env.classify i = "1")
    (hdl : env.download = none) :
    sliceHi w i - sliceLo w i = w / 3 ∧
    check_captcha env.spriteOk env.classify = false ∧
    bodyOf env = (.refresh, false) := by
  have hwidth : sliceHi w i - sliceLo w i = w / 3 := by
    unfold sliceHi sliceLo
    rw [Nat.mul_succ]
    omega
  have hcc : check_captcha env.spriteOk env.classify = false := by
    unfold check_captcha
    cases env.spriteOk
    · rfl
    · rw [if_pos rfl]
      have hr3 : List.range 3 = [0, 1, 2] := rfl
      interval_cases i <;> rcases hlab with hl | hl <;>
        simp [hr3, hl]
  refine ⟨hwidth, hcc, ?_⟩
  unfold bodyOf
  rw [hdl, hcc]
  simp

/-- Witness for Claim C7 at strip width 150, third index 1, label "1". -/
theorem check_captcha_rejects_witness :
    sliceHi 150 1 - sliceLo 150 1 = 150 / 3 ∧
    check_captcha true (fun _ => "1") = false ∧
    bodyOf ⟨none, true, fun _ => "1", true, [], fun _ _ => 0, none, false,
      none, true⟩ = (.refresh, false) :=
  check_captcha_rejects 150
    ⟨none, true, fun _ => "1", true, [], fun _ _ => 0, none, false,
      none, true⟩ 1 (by omega) (Or.inr rfl) rfl

/-- Counterexample to Claim C9: a corrupt sprite-strip decode and a
low-quality strip produce the same attempt behavior — check_captcha
returns false in both cases and the attempt body takes the identical
refresh outcome without invoking the detector — so the sprite decode
failure is folded into the low-quality rejection path rather than being a
distinct failure. -/
theorem sprite_decode_not_distinct :
    bodyOf ⟨none, false, fun _ => "", true, [], fun _ _ => 0, none, false,
        none, true⟩ =
      bodyOf ⟨none, true, fun _ => "1", true, [], fun _ _ => 0, none, false,
        none, true⟩ ∧
    bodyOf ⟨none, false, fun _ => "", true, [], fun _ _ => 0, none, false,
      none, true⟩ = (.refresh, false) ∧
    check_captcha false (fun _ => "") = check_captcha true (fun _ => "1") :=
  ⟨rfl, rfl, rfl⟩

/-- Claim C9 amended: a corrupt background-image decode is a distinct
failure — it raises the retryable CaptchaRetryableError before any
detection, rather than refreshing through the low-quality return-false
path and rather than being treated as a zero-size image — while a corrupt
sprite-strip decode is folded into the low-quality rejection path
(check_captcha returns false and the body refreshes). -/
theorem decode_failure_paths (env env2 : AttemptEnv)
    (hdl : env.download = none)
    (hcc : check_captcha env.spriteOk env.classify = true)
    (hbg : env.bgOk = false)
    (hdl2 : env2.download = none) (hs2 : env2.spriteOk = false) :
    bodyOf env = (.raised .captchaRetryable, false) ∧
    bodyOf env2 = (.refresh, false) ∧
    (BodyRes.raised .captchaRetryable, false) ≠
      ((BodyRes.refresh : BodyRes), false) := by
  refine ⟨?_, ?_, by simp⟩
  · unfold bodyOf
    rw [hdl, hcc, hbg]
    simp
  · unfold bodyOf check_captcha
    rw [hdl2, hs2]
    simp

/-- Witness for Claim C9 amended: background decode failure raises the
retryable error; sprite decode failure refreshes. -/
theorem decode_failure_paths_witness :
    bodyOf ⟨none, true, fun _ => "9", false, [], fun _ _ => 0, none, false,
      none, true⟩ = (.raised .captchaRetryable, false) ∧
    bodyOf ⟨none, false, fun _ => "", true, [], fun _ _ => 0, none, false,
      none, true⟩ = (.refresh, false) ∧
    (BodyRes.raised .captchaRetryable, false) ≠
      ((BodyRes.refresh : BodyRes), false) :=
  decode_failure_paths
    ⟨none, true, fun _ => "9", false, [], fun _ _ => 0, none, false,
      none, true⟩
    ⟨none, false, fun _ => "", true, [], fun _ _ => 0, none, false,
      none, true⟩ rfl rfl rfl rfl rfl

/-- Claim C10: every file present in the scratch directory at the start of
an attempt is removed before the attempt writes, so after any positive
number of consecutive attempts the directory holds exactly the files
written by the most recent attempt and nothing from an earlier one. -/
theorem run_attempts_only_last (fs : List TempEntry)
    (names : ℕ → List String)
    (hfs : ∀ e ∈ fs, e.kind = .regular ∨ e.kind = .symlink) (n : ℕ) :
    run_attempts fs names (n + 1) =
      (names n).map fun m => ⟨m, .regular, n⟩ := by
  induction n with
  | zero =>
    show attempt_files fs 0 (names 0) = _
    unfold attempt_files
    have hclear : clear_temp fs = [] := by
      unfold clear_temp
      rw [List.filter_eq_nil_iff]
      intro e he
      rcases hfs e he with h | h <;> simp [h]
    rw [hclear, List.nil_append]
  | succ n ih =>
    show attempt_files (run_attempts fs names (n + 1)) (n + 1)
        (names (n + 1)) = _
    rw [ih]
    unfold attempt_files
    have hclear : clear_temp ((names n).map fun m =>
        (⟨m, .regular, n⟩ : TempEntry)) = [] := by
      unfold clear_temp
      rw [List.filter_eq_nil_iff]
      intro e he
      obtain ⟨m, hm, hme⟩ := List.mem_map.1 he
      rw [← hme]
      simp
    rw [hclear, List.nil_append]

/-- Witness for Claim C10: two attempts over a directory holding one stale
regular file leave exactly the files of the second attempt. -/
theorem run_attempts_only_last_witness :
    run_attempts [⟨"stale.jpg", .regular, 0⟩]
      (fun _ => ["captcha.jpg", "sprite.jpg"]) 2 =
      [⟨"captcha.jpg", .regular, 1⟩, ⟨"sprite.jpg", .regular, 1⟩] :=
  run_attempts_only_last [⟨"stale.jpg", .regular, 0⟩]
    (fun _ => ["captcha.jpg", "sprite.jpg"])
    (by intro e he; rw [List.mem_singleton] at he; rw [he]; left; rfl) 1

end Rainyun
